import Mathlib

/-!
Verification of the Crawlio API client scripts (`crawlio_client.py`,
`simple_crawler.py`, `crawl_wiki.py`).

The remote HTTP service and the `requests` library are external
collaborators: a network interaction is modelled by a `NetResult` value
describing the outcome that `requests` delivers to the client code
(transport error, HTTP failure status that makes `raise_for_status`
raise, or a 2xx response whose body parsed as JSON).  Everything the
scripts themselves do — state updates, truthiness checks, previews,
exit codes, and the `json.dump`/`json.loads` round trip — is embedded
directly from the Python source.
-/

namespace Crawlio

/-! ### JSON documents

A parsed JSON document (the value `response.json()` returns).  Numbers
are modelled as integers (the documents exchanged here carry integral
counts and identifiers; float formatting is out of scope).  Objects are
ordered association sequences; a Python `dict` produced by `json.loads`
corresponds to an object without duplicate keys, with a later duplicate
overriding an earlier one on lookup. -/

mutual

inductive Json where
  | null : Json
  | bool (b : Bool) : Json
  | num (n : Int) : Json
  | str (s : String) : Json
  | arr (elems : JsonList) : Json
  | obj (members : JsonObj) : Json

inductive JsonList where
  | nil : JsonList
  | cons (head : Json) (tail : JsonList) : JsonList

inductive JsonObj where
  | nil : JsonObj
  | cons (key : String) (value : Json) (tail : JsonObj) : JsonObj

end

deriving instance DecidableEq for Json, JsonList, JsonObj

/-- Python truthiness of a JSON-decoded value (`None`, `False`, `0`,
`""`, `[]`, `{}` are falsy). -/
def Json.truthy : Json → Bool
  | .null => false
  | .bool b => b
  | .num n => decide (n ≠ 0)
  | .str s => decide (s ≠ "")
  | .arr .nil => false
  | .arr (.cons _ _) => true
  | .obj .nil => false
  | .obj (.cons _ _ _) => true

/-- Lookup in an object with `dict` semantics: a later binding for the
same key overrides an earlier one (as `json.loads` builds the `dict`). -/
def JsonObj.getLast : JsonObj → String → Option Json
  | .nil, _ => none
  | .cons k v tl, key =>
      match JsonObj.getLast tl key with
      | some r => some r
      | none => if k = key then some v else none

/-- `d.get(key)` on a decoded JSON object: `None` both when the key is
absent and when it is bound to JSON `null` (Python decodes `null` to
`None`, and `dict.get` returns `None` for a missing key). -/
def JsonObj.pyGet (m : JsonObj) (key : String) : Option Json :=
  match m.getLast key with
  | some .null => none
  | r => r

/-- Truthiness of `d.get(key)`: `None` is falsy. -/
def optTruthy : Option Json → Bool
  | none => false
  | some j => j.truthy

def JsonList.length : JsonList → Nat
  | .nil => 0
  | .cons _ tl => tl.length + 1

def JsonObj.length : JsonObj → Nat
  | .nil => 0
  | .cons _ _ tl => tl.length + 1

/-- Whether `needle` is a leading segment of `hay`. -/
def listStartsWith : List Char → List Char → Bool
  | [], _ => true
  | _ :: _, [] => false
  | a :: as, b :: bs => a = b && listStartsWith as bs

/-- Python substring test `needle in hay` on strings. -/
def listContainsSub : List Char → List Char → Bool
  | [], needle => listStartsWith needle []
  | c :: t, needle => listStartsWith needle (c :: t) || listContainsSub t needle

/-- Python `key in l` for a list of decoded JSON values: `==` against
each element; only string elements can equal a string key, other
element types compare unequal without error. -/
def JsonList.containsStr : JsonList → String → Bool
  | .nil, _ => false
  | .cons (.str s) tl, key => s = key || JsonList.containsStr tl key
  | .cons _ tl, key => JsonList.containsStr tl key

/-- Python `key in x` for a string key on a decoded JSON value: key
lookup on dicts, element membership on lists, substring test on
strings; `TypeError` (modelled `none`) on numbers, booleans and
`None`. -/
def pyIn (key : String) : Json → Option Bool
  | .obj m => some (m.getLast key).isSome
  | .arr l => some (l.containsStr key)
  | .str s => some (listContainsSub s.data key.data)
  | _ => none

/-- Python `x[key]` for a string key, evaluated only after `key in x`
returned `True`: dict lookup succeeds (an absent key would be
`KeyError`, also `none`); list and string indexing with a string key
raise `TypeError`. -/
def pyIndexStr (x : Json) (key : String) : Option Json :=
  match x with
  | .obj m => m.getLast key
  | _ => none

/-- Python `len(x)` on a decoded JSON value: strings, lists and dicts
(objects model dicts, so without duplicate keys the entry count is the
dict size) are sized; numbers, booleans and `None` raise
`TypeError`. -/
def pyLen : Json → Option Nat
  | .str s => some s.length
  | .arr l => some l.length
  | .obj m => some m.length
  | _ => none

/-! ### `json.dump(..., indent=2, ensure_ascii=False)`

The drivers persist a crawl result with
`json.dump(result, f, indent=2, ensure_ascii=False)`.  The serializer
below reproduces that output character by character: containers spread
over lines indented in steps of two, members separated by `",\n"`, keys
followed by `": "`, strings escaping the quote, the backslash, and
control characters (named escapes for `\n \t \r \b \f`, `\u00XX` for
the rest); with `ensure_ascii=False` every other character is written
raw. -/

/-- Lower-case hex digit for `n < 16` (as in Python's `\u00XX`). -/
def hexDigitChar (n : Nat) : Char :=
  if n < 10 then Char.ofNat ('0'.toNat + n) else Char.ofNat ('a'.toNat + (n - 10))

/-- The escape of one character inside a JSON string literal. -/
def escapeChar (c : Char) : List Char :=
  if c = '"' then ['\\', '"']
  else if c = '\\' then ['\\', '\\']
  else if c = '\n' then ['\\', 'n']
  else if c = '\t' then ['\\', 't']
  else if c = '\r' then ['\\', 'r']
  else if c = '\x08' then ['\\', 'b']
  else if c = '\x0c' then ['\\', 'f']
  else if c.toNat < 32 then
    ['\\', 'u', '0', '0', hexDigitChar (c.toNat / 16), hexDigitChar (c.toNat % 16)]
  else [c]

def escapeString : List Char → List Char
  | [] => []
  | c :: cs => escapeChar c ++ escapeString cs

/-- A JSON string literal: `"` + escaped content + `"`. -/
def quoteString (s : String) : List Char :=
  '"' :: (escapeString s.data ++ ['"'])

/-- Decimal digits of `n`, most significant first (Python `repr` of a
non-negative `int`). -/
def natDigits (n : Nat) : List Char :=
  if _h : n < 10 then [hexDigitChar n]
  else natDigits (n / 10) ++ [hexDigitChar (n % 10)]
termination_by n
decreasing_by exact Nat.div_lt_self (by omega) (by omega)

/-- Python `repr` of an `int`. -/
def intChars (n : Int) : List Char :=
  if n < 0 then '-' :: natDigits (-n).toNat else natDigits n.toNat

def indentChars (n : Nat) : List Char := List.replicate n ' '

mutual

/-- Serialization of a value whose container is indented by `ind`. -/
def dumpVal : Json → Nat → List Char
  | .null, _ => ['n', 'u', 'l', 'l']
  | .bool true, _ => ['t', 'r', 'u', 'e']
  | .bool false, _ => ['f', 'a', 'l', 's', 'e']
  | .num n, _ => intChars n
  | .str s, _ => quoteString s
  | .arr .nil, _ => ['[', ']']
  | .arr (.cons x xs), ind =>
      '[' :: '\n' :: (indentChars (ind + 2) ++ dumpVal x (ind + 2) ++ dumpRest xs (ind + 2)
        ++ '\n' :: (indentChars ind ++ [']']))
  | .obj .nil, _ => ['\x7b', '\x7d']
  | .obj (.cons k v ms), ind =>
      '\x7b' :: '\n' :: (indentChars (ind + 2) ++ quoteString k
        ++ ':' :: ' ' :: (dumpVal v (ind + 2) ++ dumpMembersRest ms (ind + 2)
        ++ '\n' :: (indentChars ind ++ ['\x7d'])))

/-- The items of an array after the first: `",\n" + indent + item` each. -/
def dumpRest : JsonList → Nat → List Char
  | .nil, _ => []
  | .cons x xs, ind => ',' :: '\n' :: (indentChars ind ++ dumpVal x ind ++ dumpRest xs ind)

/-- The members of an object after the first. -/
def dumpMembersRest : JsonObj → Nat → List Char
  | .nil, _ => []
  | .cons k v ms, ind =>
      ',' :: '\n' :: (indentChars ind ++ quoteString k
        ++ ':' :: ' ' :: (dumpVal v ind ++ dumpMembersRest ms ind))

end

/-- The exact character stream `json.dump(j, f, indent=2,
ensure_ascii=False)` writes. -/
def dumpJson (j : Json) : List Char := dumpVal j 0

/-! ### `json.loads`

A recursive-descent reading of the grammar `json.loads` accepts,
restricted to the fragment exchanged here: numbers are integral (no
fraction/exponent forms), `\uXXXX` decodes to the scalar value (no
surrogate pairing — the serializer above only emits it for control
characters).  The parser is fueled; `loads` supplies fuel larger than
any value the input can denote. -/

def isJsonWs (c : Char) : Bool :=
  c = ' ' || c = '\t' || c = '\n' || c = '\r'

def skipWs : List Char → List Char
  | [] => []
  | c :: cs => if isJsonWs c then skipWs cs else c :: cs

def digitVal? (c : Char) : Option Nat :=
  if '0' ≤ c ∧ c ≤ '9' then some (c.toNat - '0'.toNat) else none

def hexVal? (c : Char) : Option Nat :=
  if '0' ≤ c ∧ c ≤ '9' then some (c.toNat - '0'.toNat)
  else if 'a' ≤ c ∧ c ≤ 'f' then some (c.toNat - 'a'.toNat + 10)
  else if 'A' ≤ c ∧ c ≤ 'F' then some (c.toNat - 'A'.toNat + 10)
  else none

/-- Consume a maximal digit run, extending the accumulator. -/
def parseDigits : List Char → Nat → Nat × List Char
  | [], acc => (acc, [])
  | c :: cs, acc =>
      match digitVal? c with
      | some d => parseDigits cs (acc * 10 + d)
      | none => (acc, c :: cs)

/-- An unsigned integer literal: at least one digit. -/
def parseNum : List Char → Option (Nat × List Char)
  | [] => none
  | c :: cs =>
      match digitVal? c with
      | some d => some (parseDigits cs d)
      | none => none

/-- Whether the input starts with a decimal digit (a maximal digit run
continues exactly while this holds). -/
def headDigit : List Char → Bool
  | [] => false
  | c :: _ => (digitVal? c).isSome

/-- The body of a string literal after the opening quote; returns the
decoded characters and the input after the closing quote.  The fuel is
a termination artifact: every step consumes at least one input
character, so callers pass one more than the input length. -/
def parseStringBody : Nat → List Char → Option (List Char × List Char)
  | 0, _ => none
  | _ + 1, [] => none
  | n + 1, c :: cs =>
      if c = '"' then some ([], cs)
      else if c = '\\' then
        match cs with
        | [] => none
        | e :: cs2 =>
            if e = '"' then (parseStringBody n cs2).map (fun p => ('"' :: p.1, p.2))
            else if e = '\\' then (parseStringBody n cs2).map (fun p => ('\\' :: p.1, p.2))
            else if e = '/' then (parseStringBody n cs2).map (fun p => ('/' :: p.1, p.2))
            else if e = 'n' then (parseStringBody n cs2).map (fun p => ('\n' :: p.1, p.2))
            else if e = 't' then (parseStringBody n cs2).map (fun p => ('\t' :: p.1, p.2))
            else if e = 'r' then (parseStringBody n cs2).map (fun p => ('\r' :: p.1, p.2))
            else if e = 'b' then (parseStringBody n cs2).map (fun p => ('\x08' :: p.1, p.2))
            else if e = 'f' then (parseStringBody n cs2).map (fun p => ('\x0c' :: p.1, p.2))
            else if e = 'u' then
              match cs2 with
              | h1 :: h2 :: h3 :: h4 :: cs3 =>
                  match hexVal? h1, hexVal? h2, hexVal? h3, hexVal? h4 with
                  | some a, some b, some c2, some d =>
                      (parseStringBody n cs3).map
                        (fun p => (Char.ofNat (((a * 16 + b) * 16 + c2) * 16 + d) :: p.1, p.2))
                  | _, _, _, _ => none
              | _ => none
            else none
      else (parseStringBody n cs).map (fun p => (c :: p.1, p.2))

mutual

/-- Parse one value. -/
def parseVal : Nat → List Char → Option (Json × List Char)
  | 0, _ => none
  | _ + 1, [] => none
  | n + 1, c :: cs =>
      if c = 'n' then
        match cs with
        | 'u' :: 'l' :: 'l' :: rest => some (.null, rest)
        | _ => none
      else if c = 't' then
        match cs with
        | 'r' :: 'u' :: 'e' :: rest => some (.bool true, rest)
        | _ => none
      else if c = 'f' then
        match cs with
        | 'a' :: 'l' :: 's' :: 'e' :: rest => some (.bool false, rest)
        | _ => none
      else if c = '"' then
        (parseStringBody (cs.length + 1) cs).map (fun p => (.str (String.mk p.1), p.2))
      else if c = '-' then
        (parseNum cs).map (fun p => (.num (-(p.1 : Int)), p.2))
      else if c = '[' then
        match skipWs cs with
        | [] => none
        | d :: ds =>
            if d = ']' then some (.arr .nil, ds)
            else
              match parseVal n (d :: ds) with
              | some (x, s2) => (parseItems n s2).map (fun p => (.arr (.cons x p.1), p.2))
              | none => none
      else if c = '\x7b' then
        match skipWs cs with
        | [] => none
        | d :: ds =>
            if d = '\x7d' then some (.obj .nil, ds)
            else if d = '"' then
              match parseStringBody (ds.length + 1) ds with
              | some (k, s2) =>
                  match skipWs s2 with
                  | ':' :: s3 =>
                      match parseVal n (skipWs s3) with
                      | some (v, s4) =>
                          (parseMembers n s4).map
                            (fun p => (.obj (.cons (String.mk k) v p.1), p.2))
                      | none => none
                  | _ => none
              | none => none
            else none
      else
        (parseNum (c :: cs)).map (fun p => (.num (p.1 : Int), p.2))

/-- After one array item: a `]` closes, a `,` precedes the next item. -/
def parseItems : Nat → List Char → Option (JsonList × List Char)
  | 0, _ => none
  | n + 1, cs =>
      match skipWs cs with
      | [] => none
      | d :: ds =>
          if d = ']' then some (.nil, ds)
          else if d = ',' then
            match parseVal n (skipWs ds) with
            | some (x, s2) => (parseItems n s2).map (fun p => (.cons x p.1, p.2))
            | none => none
          else none

/-- After one object member. -/
def parseMembers : Nat → List Char → Option (JsonObj × List Char)
  | 0, _ => none
  | n + 1, cs =>
      match skipWs cs with
      | [] => none
      | d :: ds =>
          if d = '\x7d' then some (.nil, ds)
          else if d = ',' then
            match skipWs ds with
            | '"' :: ds2 =>
                match parseStringBody (ds2.length + 1) ds2 with
                | some (k, s2) =>
                    match skipWs s2 with
                    | ':' :: s3 =>
                        match parseVal n (skipWs s3) with
                        | some (v, s4) =>
                            (parseMembers n s4).map
                              (fun p => (.cons (String.mk k) v p.1, p.2))
                        | none => none
                    | _ => none
                | none => none
            | _ => none
          else none

end

/-- `json.loads` on a character stream: parse one value surrounded by
whitespace, reject trailing garbage. -/
def loads (cs : List Char) : Option Json :=
  match parseVal (cs.length + 1) (skipWs cs) with
  | some (j, rest) => if skipWs rest = [] then some j else none
  | none => none

/-! ### The network boundary

The outcome `requests` delivers for one HTTP request, as observed by
the `try`/`except requests.exceptions.RequestException` blocks:

* `transportError` — connection/timeout/DNS failure: the exception's
  `response` attribute is `None`;
* `httpError status body` — a response whose failure status makes
  `response.raise_for_status()` raise `HTTPError`; `body` is its JSON
  body when it has one;
* `success body` — a 2xx response, `body` being the JSON value
  `response.json()` returned. -/
inductive NetResult where
  | transportError : NetResult
  | httpError (status : Nat) (body : Option Json) : NetResult
  | success (body : Json) : NetResult

/-! ### Observable console output

One constructor per `print` statement executed by the client and the
driver scripts; constructors carry the interpolated data. -/
inductive PrintEvent where
  | registering (email : String)
  | regSuccess
  | apiKeyShown (key : Option Json)
  | regFailedNoKey
  | regFailedExc
  | noApiKey
  | crawling (url : String)
  | crawlCompleted
  | crawlFailed
  | fetchingHistory
  | historyRetrieved
  | historyFailed
  | textPreviewShown (preview : String)
  | textPreviewRaw (value : Json)
  | sectionsFound (count : Nat)
  | sectionTitleShown (title : Json)
  | metadataShown (metadata : Json)
  | resultsSaved (filename : String)
  | failedToRegister
  | historyCount (count : Nat)
  | latestJobShown (job_id created_at : Json)
  | demoCompleted
  | simpleCrawlFailed
  | placeholderWarning
  | wikiCrawlOk
  | wikiCrawlFailed
  deriving DecidableEq

/-- Which print events report a failure (the "printed diagnostic" of
the error-handling contract). -/
def PrintEvent.isDiagnostic : PrintEvent → Bool
  | .regFailedNoKey => true
  | .regFailedExc => true
  | .noApiKey => true
  | .crawlFailed => true
  | .historyFailed => true
  | .simpleCrawlFailed => true
  | .placeholderWarning => true
  | .failedToRegister => true
  | .wikiCrawlFailed => true
  | _ => false

/-! ### The client -/

/-- `CrawlioClient.__init__`: state of one client instance.  `api_key`
is `Optional`; it may hold any JSON value at runtime because
`register_user` stores `data.get('api_key')` unchecked.  `session` is
the opaque `requests.Session` handle acquired at construction. -/
structure CrawlioClient where
  base_url : String
  api_key : Option Json
  session : Nat
  deriving DecidableEq

/-- `CrawlioClient(base_url)`: strips trailing slashes from the base
address, leaves the token unset, opens a fresh session. -/
def CrawlioClient.init (base_url : String) : CrawlioClient :=
  { base_url := base_url.dropRightWhile (fun c => c == '/')
    api_key := none
    session := 0 }

/-- Outcome of one client operation: the state after the call, the
returned value, the `print`s issued, and whether an HTTP request was
sent. -/
structure OpOut (α : Type) where
  state : CrawlioClient
  result : α
  prints : List PrintEvent
  net : Bool
  deriving DecidableEq

/-- `CrawlioClient.register_user`.  The result is `none` when an
exception escapes the method uncaught (only possible when a 2xx body is
not a JSON object, so that `data.get` raises `AttributeError`, which
the `except RequestException` clause does not catch); otherwise
`some b` with `b` the returned flag.

On a success response the method stores `data.get('api_key')` into
`self.api_key` before testing it, so the stored token is overwritten
even when the test then fails.  In the `except` clause the
error-details branch is guarded by `if hasattr(e, 'response') and
e.response:`; `requests.Response.__bool__` is `ok`, which is `False`
for every status that made `raise_for_status` raise, and transport
errors carry no response, so only the `Registration failed: {e}` line
prints. -/
def register_user (c : CrawlioClient) (email _password _first_name _last_name : String)
    (net : NetResult) : OpOut (Option Bool) :=
  match net with
  | .transportError =>
      { state := c, result := some false
        prints := [.registering email, .regFailedExc], net := true }
  | .httpError _ _ =>
      { state := c, result := some false
        prints := [.registering email, .regFailedExc], net := true }
  | .success body =>
      match body with
      | .obj m =>
          let k := m.pyGet "api_key"
          let c2 := { c with api_key := k }
          if optTruthy k then
            { state := c2, result := some true
              prints := [.registering email, .regSuccess, .apiKeyShown k], net := true }
          else
            { state := c2, result := some false
              prints := [.registering email, .regFailedNoKey], net := true }
      | _ =>
          { state := c, result := none
            prints := [.registering email], net := true }

/-- The request body `crawl_url` posts: `{"url": url}` plus the options
under `"options"` when they are truthy (`if options:`). -/
def crawlPayload (url : String) (options : Option Json) : Json :=
  match options with
  | some o =>
      if o.truthy then .obj (.cons "url" (.str url) (.cons "options" o .nil))
      else .obj (.cons "url" (.str url) .nil)
  | none => .obj (.cons "url" (.str url) .nil)

/-- `CrawlioClient.crawl_url`.  Fails immediately (no request) when the
stored token is falsy; otherwise posts once and returns the parsed body
on success, `None` on transport error or failure status. -/
def crawl_url (c : CrawlioClient) (url : String) (options : Option Json)
    (net : NetResult) : OpOut (Option Json) :=
  if optTruthy c.api_key then
    match net with
    | .success body =>
        { state := c, result := some body
          prints := [.crawling url, .crawlCompleted], net := true }
    | .transportError =>
        { state := c, result := none
          prints := [.crawling url, .crawlFailed], net := true }
    | .httpError _ _ =>
        { state := c, result := none
          prints := [.crawling url, .crawlFailed], net := true }
  else
    { state := c, result := none, prints := [.noApiKey], net := false }

/-- `CrawlioClient.get_crawl_history`: same precondition and failure
contract as `crawl_url`, no parameters. -/
def get_crawl_history (c : CrawlioClient) (net : NetResult) : OpOut (Option Json) :=
  if optTruthy c.api_key then
    match net with
    | .success body =>
        { state := c, result := some body
          prints := [.fetchingHistory, .historyRetrieved], net := true }
    | .transportError =>
        { state := c, result := none
          prints := [.fetchingHistory, .historyFailed], net := true }
    | .httpError _ _ =>
        { state := c, result := none
          prints := [.fetchingHistory, .historyFailed], net := true }
  else
    { state := c, result := none, prints := [.noApiKey], net := false }

/-! ### Driver scripts -/

/-- The display preview of `crawlio_client.main` (line 200):
`data['text'][:200] + "..." if len(data['text']) > 200 else
data['text']`. -/
def client_text_preview (t : String) : String :=
  if t.length > 200 then t.take 200 ++ "..." else t

/-- The display preview of `crawl_wiki.main` (line 27): the same
conditional expression. -/
def wiki_text_preview (t : String) : String :=
  if t.length > 200 then t.take 200 ++ "..." else t

/-- The display preview of `simple_crawler.crawl_with_api_key`
(line 45): `data['data']['text'][:200] + "..."` — the marker is
appended unconditionally. -/
def simple_text_preview (t : String) : String :=
  t.take 200 ++ "..."

/-- The options dict hardcoded in all three scripts
(`crawlio_client.py` 180-185, `simple_crawler.py` 22-27,
`crawl_wiki.py` 13-18). -/
def crawlOptionsConst : Json :=
  .obj (.cons "extractText" (.bool true) (.cons "extractLinks" (.bool true)
    (.cons "extractMeta" (.bool true) (.cons "screenshot" (.bool false) .nil))))

/-- The conditional preview expression (`crawlio_client.py` line 200,
`crawl_wiki.py` line 27) evaluated on the `text` value, `none` being an
uncaught exception: `len` raises `TypeError` on numbers, booleans and
`None`; on a string the conditional preview prints; a list or dict
longer than 200 crashes at the `[:200] + "..."` concatenation
(`TypeError`), while a short one is printed as-is. -/
def condPreviewEval (preview : String → String) (t : Json) : Option PrintEvent :=
  match t with
  | .str s => some (.textPreviewShown (preview s))
  | .arr l => if l.length > 200 then none else some (.textPreviewRaw t)
  | .obj m => if m.length > 200 then none else some (.textPreviewRaw t)
  | _ => none

/-- The unconditional preview of `simple_crawler.py` line 45,
`data['data']['text'][:200] + "..."`: only a string survives — slicing
raises `TypeError` on numbers, booleans, `None` and dicts, and a sliced
list crashes at the `+ "..."` concatenation. -/
def simplePreviewEval (t : Json) : Option PrintEvent :=
  match t with
  | .str s => some (.textPreviewShown (simple_text_preview s))
  | _ => none

/-- `if 'text' in data:` followed by the conditional preview
(`crawlio_client.py` 199-201, `crawl_wiki.py` 26-28); `none` is an
uncaught exception (`in` on a number, indexing a list/string with a
string key, or the preview itself). -/
def textBlockEval (preview : String → String) (data : Json) : Option (List PrintEvent) :=
  match pyIn "text" data with
  | none => none
  | some false => some []
  | some true =>
      match pyIndexStr data "text" with
      | none => none
      | some t =>
          match condPreviewEval preview t with
          | some ev => some [ev]
          | none => none

/-- `section.get('title', 'Untitled')` over the first `k` sections
(`crawlio_client.py` 205-206): crashes (`AttributeError`) unless each
visited element is a dict; `dict.get` returns the stored value even
when it is `null`. -/
def sectionTitles : JsonList → Nat → Option (List PrintEvent)
  | _, 0 => some []
  | .nil, _ + 1 => some []
  | .cons (.obj m) tl, k + 1 =>
      match sectionTitles tl k with
      | some evs => some (.sectionTitleShown ((m.getLast "title").getD (.str "Untitled")) :: evs)
      | none => none
  | .cons _ _, _ + 1 => none

/-- `if 'sections' in data and data['sections']:` then the count and
the first-three-titles loop (`crawlio_client.py` 203-206).  A truthy
non-list `sections` crashes: `len` raises on numbers/booleans, `[:3]`
raises on dicts, and iterating a sliced string yields characters whose
`.get` raises. -/
def sectionsBlockEval (data : Json) : Option (List PrintEvent) :=
  match pyIn "sections" data with
  | none => none
  | some false => some []
  | some true =>
      match pyIndexStr data "sections" with
      | none => none
      | some v =>
          if v.truthy then
            match pyLen v with
            | none => none
            | some n =>
                match v with
                | .arr l =>
                    match sectionTitles l 3 with
                    | some evs => some (.sectionsFound n :: evs)
                    | none => none
                | _ => none
          else some []

/-- The `crawl_wiki.py` sections block (lines 29-30): only the count is
printed, no per-section loop. -/
def wikiSectionsEval (data : Json) : Option (List PrintEvent) :=
  match pyIn "sections" data with
  | none => none
  | some false => some []
  | some true =>
      match pyIndexStr data "sections" with
      | none => none
      | some v =>
          if v.truthy then
            match pyLen v with
            | none => none
            | some n => some [.sectionsFound n]
          else some []

/-- `if 'metadata' in body:` then the `metadata.get(...)` prints
(`crawlio_client.py` 208-212, `simple_crawler.py` 48-51, `crawl_wiki.py`
31-35): `.get` raises `AttributeError` unless `metadata` is a dict;
`metadataShown` stands for the two or three detail lines. -/
def metadataBlockEval (body : Json) : Option (List PrintEvent) :=
  match pyIn "metadata" body with
  | none => none
  | some false => some []
  | some true =>
      match pyIndexStr body "metadata" with
      | none => none
      | some md =>
          match md with
          | .obj m => some [.metadataShown (.obj m)]
          | _ => none

/-- The result summary `crawlio_client.main` prints (lines 196-212):
the `data` block (text preview, then sections) and the `metadata`
block, in program order; `none` is an uncaught exception at any
step. -/
def clientSummary (j : Json) : Option (List PrintEvent) :=
  match pyIn "data" j with
  | none => none
  | some false => metadataBlockEval j
  | some true =>
      match pyIndexStr j "data" with
      | none => none
      | some data =>
          match textBlockEval client_text_preview data with
          | none => none
          | some evs1 =>
              match sectionsBlockEval data with
              | none => none
              | some evs2 =>
                  match metadataBlockEval j with
                  | none => none
                  | some evs3 => some (evs1 ++ evs2 ++ evs3)

/-- The summary `crawl_wiki.main` prints (lines 24-35). -/
def wikiSummary (j : Json) : Option (List PrintEvent) :=
  match pyIn "data" j with
  | none => none
  | some false => metadataBlockEval j
  | some true =>
      match pyIndexStr j "data" with
      | none => none
      | some data =>
          match textBlockEval wiki_text_preview data with
          | none => none
          | some evs1 =>
              match wikiSectionsEval data with
              | none => none
              | some evs2 =>
                  match metadataBlockEval j with
                  | none => none
                  | some evs3 => some (evs1 ++ evs2 ++ evs3)

/-- The summary `simple_crawler.crawl_with_api_key` prints
(lines 44-51): `if 'data' in data and 'text' in data['data']:` (the
`and` short-circuits) then the unconditional preview, then the
`metadata` block. -/
def simpleSummary (j : Json) : Option (List PrintEvent) :=
  match pyIn "data" j with
  | none => none
  | some false => metadataBlockEval j
  | some true =>
      match pyIndexStr j "data" with
      | none => none
      | some d =>
          match pyIn "text" d with
          | none => none
          | some false => metadataBlockEval j
          | some true =>
              match pyIndexStr d "text" with
              | none => none
              | some t =>
                  match simplePreviewEval t with
                  | none => none
                  | some ev =>
                      match metadataBlockEval j with
                      | none => none
                      | some evs => some (ev :: evs)

/-- `simple_crawler.crawl_with_api_key`: the key is a parameter, there
is no presence check, one request is always posted.  The summary runs
inside the `try`, but a `TypeError`/`AttributeError` it raises is not a
`RequestException`, so it escapes the function uncaught: the outer
`none` models that; `some none`/`some body` are the normal returns for
failure/success. -/
def crawl_with_api_key (_api_key url : String) (net : NetResult) :
    Option (Option Json) × List PrintEvent :=
  match net with
  | .success body =>
      match simpleSummary body with
      | some evs => (some (some body), [.crawling url, .crawlCompleted] ++ evs)
      | none => (none, [.crawling url, .crawlCompleted])
  | .transportError => (some none, [.crawling url, .simpleCrawlFailed])
  | .httpError _ _ => (some none, [.crawling url, .simpleCrawlFailed])

/-- How a driver run ended. -/
inductive RunEnd where
  | completed
  | exited (code : Nat)
  | crashed
  deriving DecidableEq

/-- Observable outcome of one driver run: how the process ended, what
it printed, the document passed to `json.dump` when a result file was
written (the file then contains exactly `dumpJson` of it), and how many
HTTP requests were issued.  The prints of a crashed run are truncated
at the block where the exception arose; only the ending and the saved
document are asserted about such runs. -/
structure MainOut where
  ending : RunEnd
  prints : List PrintEvent
  saved : Option Json
  netCalls : Nat
  deriving DecidableEq

/-- The history block of `crawlio_client.main` (lines 225-230):
`if history and 'jobs' in history:` then the count,
`history['jobs'][0]` and two `.get` prints when the job list is truthy.
Crashes: `in` on a truthy number/boolean, `history['jobs']` on a
string/list, `len` on an unsized value, `[0]` on a dict (string keys,
so `KeyError`), and `.get` on a non-dict first element (a string's
first character included). -/
def historyBlockEval (h : Json) : Option (List PrintEvent) :=
  if h.truthy then
    match pyIn "jobs" h with
    | none => none
    | some false => some []
    | some true =>
        match pyIndexStr h "jobs" with
        | none => none
        | some jobs =>
            match pyLen jobs with
            | none => none
            | some n =>
                if jobs.truthy then
                  match jobs with
                  | .arr (.cons (.obj m) _) =>
                      some [.historyCount n,
                        .latestJobShown ((m.getLast "job_id").getD (.str "N/A"))
                          ((m.getLast "created_at").getD (.str "N/A"))]
                  | _ => none
                else some [.historyCount n]
  else some []

/-- `crawlio_client.main` (lines 146-234): register — `sys.exit(1)`
when that fails — then crawl; on a truthy result the summary prints and
the file is written (a summary crash aborts the run before the write);
then the history fetch and its block (whose crash happens after the
write); then the closing prints.  `net1 net2 net3` are the outcomes of
the three requests; `timestamp` is the `int(time.time())` used in the
generated email and filename. -/
def client_main (timestamp : Nat) (net1 net2 net3 : NetResult) : MainOut :=
  let c := CrawlioClient.init "http://localhost:3002"
  let email := "testuser_" ++ toString timestamp ++ "@example.com"
  let r1 := register_user c email "testpass123" "Test" "User" net1
  match r1.result with
  | none => { ending := .crashed, prints := r1.prints, saved := none, netCalls := 1 }
  | some false =>
      { ending := .exited 1, prints := r1.prints ++ [.failedToRegister]
        saved := none, netCalls := 1 }
  | some true =>
      let r2 := crawl_url r1.state "https://www.wikipedia.org/" (some crawlOptionsConst) net2
      let step2 : Option (Option Json × List PrintEvent) :=
        match r2.result with
        | some j =>
            if j.truthy then
              match clientSummary j with
              | some evs =>
                  some (some j,
                    evs ++ [.resultsSaved ("crawl_result_" ++ toString timestamp ++ ".json")])
              | none => none
            else some (none, [])
        | none => some (none, [])
      match step2 with
      | none =>
          { ending := .crashed, prints := r1.prints ++ r2.prints
            saved := none, netCalls := 1 + cond r2.net 1 0 }
      | some (saved2, sevs) =>
          let r3 := get_crawl_history r2.state net3
          let hist : Option (List PrintEvent) :=
            match r3.result with
            | some h => historyBlockEval h
            | none => some []
          match hist with
          | none =>
              { ending := .crashed
                prints := r1.prints ++ r2.prints ++ sevs ++ r3.prints
                saved := saved2, netCalls := 1 + cond r2.net 1 0 + cond r3.net 1 0 }
          | some hevs =>
              { ending := .completed
                prints := r1.prints ++ r2.prints ++ sevs ++ r3.prints ++ hevs
                  ++ [.demoCompleted, .apiKeyShown r3.state.api_key]
                saved := saved2, netCalls := 1 + cond r2.net 1 0 + cond r3.net 1 0 }

/-- The placeholder constant at `simple_crawler.py` line 64. -/
def API_KEY : String := "YOUR_API_KEY_HERE"

def TARGET_URL : String := "https://www.wikipedia.org/"

/-- `simple_crawler.main` with the key constant as a parameter (the
spec quantifies over whether the placeholder was replaced): with the
placeholder in place the script exits 1 before any request; otherwise
one crawl — whose summary may crash the process — and a file save when
the returned result is truthy. -/
def simple_main (api_key : String) (timestamp : Nat) (net : NetResult) : MainOut :=
  if api_key = "YOUR_API_KEY_HERE" then
    { ending := .exited 1, prints := [.placeholderWarning], saved := none, netCalls := 0 }
  else
    let r := crawl_with_api_key api_key TARGET_URL net
    match r.1 with
    | none => { ending := .crashed, prints := r.2, saved := none, netCalls := 1 }
    | some none => { ending := .completed, prints := r.2, saved := none, netCalls := 1 }
    | some (some j) =>
        if j.truthy then
          { ending := .completed
            prints := r.2 ++ [.resultsSaved ("simple_crawl_" ++ toString timestamp ++ ".json")]
            saved := some j, netCalls := 1 }
        else { ending := .completed, prints := r.2, saved := none, netCalls := 1 }

/-- The key `crawl_wiki.py` line 9 assigns directly to
`client.api_key`. -/
def WIKI_KEY : String := "0IsGoeQuG0jpWgG5ehwPkRMDWgmfyzjv"

/-- `crawl_wiki.main`: assign the key externally, crawl once, print a
summary (which can crash on an unexpected body shape) or a failure
line; the script has no `sys.exit` call. -/
def wiki_main (net : NetResult) : MainOut :=
  let c := CrawlioClient.init "http://localhost:3002"
  let c2 := { c with api_key := some (.str WIKI_KEY) }
  let r := crawl_url c2 "https://www.wikipedia.org/" (some crawlOptionsConst) net
  match r.result with
  | some j =>
      if j.truthy then
        match wikiSummary j with
        | some evs =>
            { ending := .completed, prints := r.prints ++ [.wikiCrawlOk] ++ evs
              saved := none, netCalls := 1 }
        | none =>
            { ending := .crashed, prints := r.prints ++ [.wikiCrawlOk]
              saved := none, netCalls := 1 }
      else
        { ending := .completed, prints := r.prints ++ [.wikiCrawlFailed]
          saved := none, netCalls := 1 }
  | none =>
      { ending := .completed, prints := r.prints ++ [.wikiCrawlFailed]
        saved := none, netCalls := cond r.net 1 0 }

/-! ### Auxiliary definitions for the statements and proofs -/

mutual

/-- Fuel sufficient for `parseVal` on the serialization of a value. -/
def Json.pfuel : Json → Nat
  | .null => 1
  | .bool _ => 1
  | .num _ => 1
  | .str _ => 1
  | .arr .nil => 1
  | .arr (.cons x xs) => 1 + max x.pfuel xs.pfuelL
  | .obj .nil => 1
  | .obj (.cons _ v ms) => 1 + max v.pfuel ms.pfuelO

/-- Fuel sufficient for `parseItems` on serialized trailing items. -/
def JsonList.pfuelL : JsonList → Nat
  | .nil => 1
  | .cons x xs => 1 + max x.pfuel xs.pfuelL

/-- Fuel sufficient for `parseMembers` on serialized trailing members. -/
def JsonObj.pfuelO : JsonObj → Nat
  | .nil => 1
  | .cons _ v ms => 1 + max v.pfuel ms.pfuelO

end

/-- A client already holding a token, as after a successful
registration or an external assignment. -/
def keyedClient : CrawlioClient :=
  { base_url := "http://localhost:3002", api_key := some (.str "OLD"), session := 0 }

/-- A registration success body carrying a token. -/
def regSuccessBody : Json :=
  .obj (.cons "api_key" (.str "0IsGoeQuG0jpWgG5ehwPkRMDWgmfyzjv") .nil)

/-- Whether a network outcome is a failure (transport error or HTTP
failure status) rather than a 2xx response. -/
def NetResult.isErr : NetResult → Bool
  | .success _ => false
  | .transportError => true
  | .httpError _ _ => true

/-- A well-shaped crawl result: the preview, sections and metadata
blocks all evaluate without an exception. -/
def sampleCrawlBody : Json :=
  .obj (.cons "data" (.obj (.cons "text" (.str "Wikipedia") .nil)) .nil)

/-- A 2xx crawl body whose `data.text` field is the number `0`: every
driver's preview code raises an uncaught `TypeError` on it
(`len(0)` at `crawlio_client.py` 200 / `crawl_wiki.py` 27, `0[:200]` at
`simple_crawler.py` 45). -/
def badCrawlBody : Json :=
  .obj (.cons "data" (.obj (.cons "text" (.num 0) .nil)) .nil)

/-! ## Theorems -/

/-- C1 fails as stated: in `simple_crawler.py` the preview of a field
of 200 characters or fewer is not the field unchanged — the truncation
marker is appended unconditionally. -/
theorem C1_counterexample :
    ("hi".length ≤ 200) ∧ simple_text_preview "hi" ≠ "hi" := by
  constructor
  · decide
  · unfold simple_text_preview
    rw [String.take_eq, List.take_of_length_le (by decide)]
    decide

/-- C1 (amended): in `crawlio_client.py` and `crawl_wiki.py` the
preview is the first 200 characters plus the marker for fields longer
than 200 characters and the field unchanged otherwise; in
`simple_crawler.py` the preview is always the first `min(len, 200)`
characters followed by the marker, so a short field gains the marker. -/
theorem C1_preview (t : String) :
    (t.length > 200 →
      client_text_preview t = t.take 200 ++ "..." ∧
      wiki_text_preview t = t.take 200 ++ "..." ∧
      simple_text_preview t = t.take 200 ++ "...") ∧
    (t.length ≤ 200 →
      client_text_preview t = t ∧
      wiki_text_preview t = t ∧
      simple_text_preview t = t ++ "...") := by
  constructor
  · intro h
    refine ⟨?_, ?_, rfl⟩
    · simp [client_text_preview, h]
    · simp [wiki_text_preview, h]
  · intro h
    have h2 : ¬ t.length > 200 := by omega
    have htake : t.take 200 = t := by
      rw [String.take_eq, List.take_of_length_le h]
    refine ⟨?_, ?_, ?_⟩
    · simp [client_text_preview, h2]
    · simp [wiki_text_preview, h2]
    · simp [simple_text_preview, htake]

set_option maxRecDepth 4096 in
/-- C1 witness: the amended statement at a 201-character field and at a
2-character field. -/
theorem C1_witness :
    ((String.mk (List.replicate 201 'a')).length > 200 ∧
      client_text_preview (String.mk (List.replicate 201 'a')) =
        (String.mk (List.replicate 201 'a')).take 200 ++ "...") ∧
    ("hi".length ≤ 200 ∧ client_text_preview "hi" = "hi" ∧
      simple_text_preview "hi" = "hi" ++ "...") :=
  ⟨⟨by decide, ((C1_preview (String.mk (List.replicate 201 'a'))).1 (by decide)).1⟩,
   ⟨by decide, ((C1_preview "hi").2 (by decide)).1, ((C1_preview "hi").2 (by decide)).2.2⟩⟩

/-- C2 fails as stated: a success response lacking the token field is a
failing call, yet it does not leave the token as it was — a previously
stored token is overwritten with `None` by the unconditional
`self.api_key = data.get('api_key')`. -/
theorem C2_counterexample :
    (register_user keyedClient "e" "p" "f" "l" (.success (.obj .nil))).result = some false ∧
    (register_user keyedClient "e" "p" "f" "l" (.success (.obj .nil))).state.api_key = none ∧
    keyedClient.api_key = some (.str "OLD") := by
  decide

/-- C2 (amended): on a transport error or failure status the token is
left exactly as it was; on any 2xx object body `register_user` stores
`data.get('api_key')` unconditionally — also when the call then reports
failure — and succeeds exactly when that value is truthy.  In
particular, when no token was previously set, a success body lacking
the field leaves the token unset and the operation reports failure. -/
theorem C2_token_mutation (c : CrawlioClient) (email pw fn ln : String) :
    ((register_user c email pw fn ln .transportError).state = c) ∧
    (∀ st b, (register_user c email pw fn ln (.httpError st b)).state = c) ∧
    (∀ m : JsonObj,
      (register_user c email pw fn ln (.success (.obj m))).state =
        { c with api_key := m.pyGet "api_key" } ∧
      (register_user c email pw fn ln (.success (.obj m))).result =
        some (optTruthy (m.pyGet "api_key"))) ∧
    (c.api_key = none → ∀ m : JsonObj, m.pyGet "api_key" = none →
      (register_user c email pw fn ln (.success (.obj m))).state.api_key = none ∧
      (register_user c email pw fn ln (.success (.obj m))).result = some false) := by
  refine ⟨rfl, fun st b => rfl, fun m => ?_, fun hc m hm => ?_⟩
  · unfold register_user
    by_cases h : optTruthy (m.pyGet "api_key") = true
    · simp [h]
    · simp only [Bool.not_eq_true] at h
      simp [h]
  · unfold register_user
    simp [hm, optTruthy]

/-- C2 witness: the amended statement at a fresh client and a success
body without the token field. -/
theorem C2_witness :
    (register_user (CrawlioClient.init "http://localhost:3002") "e" "p" "f" "l"
      (.success (.obj .nil))).state.api_key = none ∧
    (register_user (CrawlioClient.init "http://localhost:3002") "e" "p" "f" "l"
      (.success (.obj .nil))).result = some false :=
  (C2_token_mutation (CrawlioClient.init "http://localhost:3002")
    "e" "p" "f" "l").2.2.2 rfl .nil rfl

/-- C3 fails as stated: two of the failure causes on `register_user` —
a success response missing the expected field and a transport error —
both return a falsy result, yet differ observably at the client
boundary: the first overwrites a previously stored token, the second
leaves the client state untouched. -/
theorem C3_counterexample :
    (register_user keyedClient "e" "p" "f" "l" (.success (.obj .nil))).result = some false ∧
    (register_user keyedClient "e" "p" "f" "l" .transportError).result = some false ∧
    (register_user keyedClient "e" "p" "f" "l" (.success (.obj .nil))).state ≠
      (register_user keyedClient "e" "p" "f" "l" .transportError).state := by
  decide

/-- C3 (amended): every failure cause on every operation — transport
error, HTTP failure status, and (for `register_user`) a success body
whose token field is missing or falsy — returns a falsy result and
prints a diagnostic; but the causes are not otherwise observably
identical, since the missing-field case also overwrites the stored
token (`C3_counterexample`). -/
theorem C3_uniform_failure (c : CrawlioClient) (email pw fn ln url : String)
    (options : Option Json) :
    ((register_user c email pw fn ln .transportError).result = some false ∧
      ((register_user c email pw fn ln .transportError).prints.any PrintEvent.isDiagnostic)
        = true) ∧
    (∀ st b, (register_user c email pw fn ln (.httpError st b)).result = some false ∧
      ((register_user c email pw fn ln (.httpError st b)).prints.any PrintEvent.isDiagnostic)
        = true) ∧
    (∀ m : JsonObj, optTruthy (m.pyGet "api_key") = false →
      (register_user c email pw fn ln (.success (.obj m))).result = some false ∧
      ((register_user c email pw fn ln (.success (.obj m))).prints.any PrintEvent.isDiagnostic)
        = true) ∧
    ((crawl_url c url options .transportError).result = none ∧
      ((crawl_url c url options .transportError).prints.any PrintEvent.isDiagnostic) = true) ∧
    (∀ st b, (crawl_url c url options (.httpError st b)).result = none ∧
      ((crawl_url c url options (.httpError st b)).prints.any PrintEvent.isDiagnostic) = true) ∧
    ((get_crawl_history c .transportError).result = none ∧
      ((get_crawl_history c .transportError).prints.any PrintEvent.isDiagnostic) = true) ∧
    (∀ st b, (get_crawl_history c (.httpError st b)).result = none ∧
      ((get_crawl_history c (.httpError st b)).prints.any PrintEvent.isDiagnostic) = true) := by
  refine ⟨⟨rfl, rfl⟩, fun st b => ⟨rfl, rfl⟩, fun m hm => ?_, ?_, fun st b => ?_, ?_,
    fun st b => ?_⟩
  · unfold register_user
    simp [hm, PrintEvent.isDiagnostic]
  · unfold crawl_url
    by_cases h : optTruthy c.api_key = true
    · simp [h, PrintEvent.isDiagnostic]
    · simp only [Bool.not_eq_true] at h
      simp [h, PrintEvent.isDiagnostic]
  · unfold crawl_url
    by_cases h : optTruthy c.api_key = true
    · simp [h, PrintEvent.isDiagnostic]
    · simp only [Bool.not_eq_true] at h
      simp [h, PrintEvent.isDiagnostic]
  · unfold get_crawl_history
    by_cases h : optTruthy c.api_key = true
    · simp [h, PrintEvent.isDiagnostic]
    · simp only [Bool.not_eq_true] at h
      simp [h, PrintEvent.isDiagnostic]
  · unfold get_crawl_history
    by_cases h : optTruthy c.api_key = true
    · simp [h, PrintEvent.isDiagnostic]
    · simp only [Bool.not_eq_true] at h
      simp [h, PrintEvent.isDiagnostic]

/-- C3 witness: the success-body-with-missing-field arm at a fresh
client. -/
theorem C3_witness :
    optTruthy ((JsonObj.nil).pyGet "api_key") = false ∧
    (register_user (CrawlioClient.init "http://localhost:3002") "e" "p" "f" "l"
      (.success (.obj .nil))).result = some false :=
  ⟨by decide,
    ((C3_uniform_failure (CrawlioClient.init "http://localhost:3002") "e" "p" "f" "l"
      "https://www.wikipedia.org/" none).2.2.1 .nil (by decide)).1⟩

/-- C4 fails as stated: a registration failure in
`crawlio_client.main` also terminates the process, with
`sys.exit(1)` — an operation failure other than the placeholder
credential check. -/
theorem C4_counterexample :
    (client_main 0 .transportError .transportError .transportError).ending = .exited 1 := by
  decide

/-- C4 (amended): exactly two checks terminate a run deliberately —
the placeholder credential check of `simple_crawler.main`, which exits
1 before any request, and the registration-failure check of
`crawlio_client.main`, which exits 1 after the registration attempt.
Crawl and history failures (transport errors and HTTP failure
statuses) never terminate any script.  A 2xx crawl body of an
unexpected shape, however, crashes each driver with an uncaught
`TypeError` — a crash, not a deliberate exit — so the drivers do not
always run to completion on success responses. -/
theorem C4_exit_behavior :
    (∀ t net, (simple_main API_KEY t net).ending = .exited 1 ∧
      (simple_main API_KEY t net).netCalls = 0) ∧
    (∀ key t, key ≠ "YOUR_API_KEY_HERE" →
      (simple_main key t .transportError).ending = .completed ∧
      (∀ st b, (simple_main key t (.httpError st b)).ending = .completed)) ∧
    (∀ t net2 net3, (client_main t .transportError net2 net3).ending = .exited 1) ∧
    (∀ t st b net2 net3, (client_main t (.httpError st b) net2 net3).ending = .exited 1) ∧
    (∀ t net2 net3, net2.isErr = true → net3.isErr = true →
      (client_main t (.success regSuccessBody) net2 net3).ending = .completed) ∧
    (∀ net, net.isErr = true → (wiki_main net).ending = .completed) ∧
    ((client_main 0 (.success regSuccessBody) (.success badCrawlBody)
      .transportError).ending = .crashed) ∧
    ((wiki_main (.success badCrawlBody)).ending = .crashed) ∧
    ((simple_main WIKI_KEY 0 (.success badCrawlBody)).ending = .crashed) := by
  refine ⟨fun t net => ⟨rfl, rfl⟩, fun key t hk => ?_, fun t net2 net3 => rfl,
    fun t st b net2 net3 => rfl, fun t net2 net3 h2 h3 => ?_, fun net h => ?_,
    by decide, by decide, by decide⟩
  · constructor
    · unfold simple_main
      rw [if_neg hk]
      rfl
    · intro st b
      unfold simple_main
      rw [if_neg hk]
      rfl
  · cases net2 with
    | success body => simp [NetResult.isErr] at h2
    | transportError =>
        cases net3 with
        | success body => simp [NetResult.isErr] at h3
        | transportError => rfl
        | httpError st b => rfl
    | httpError st b =>
        cases net3 with
        | success body => simp [NetResult.isErr] at h3
        | transportError => rfl
        | httpError st2 b2 => rfl
  · cases net with
    | success body => simp [NetResult.isErr] at h
    | transportError => rfl
    | httpError st b => rfl

/-- C4 witness: the failure arms of the amended statement, instantiated
at a replaced key and at transport errors on each script. -/
theorem C4_witness :
    (simple_main "0IsGoeQuG0jpWgG5ehwPkRMDWgmfyzjv" 0 .transportError).ending = .completed ∧
    (client_main 0 (.success regSuccessBody) .transportError .transportError).ending
      = .completed ∧
    (wiki_main .transportError).ending = .completed :=
  ⟨(C4_exit_behavior.2.1 "0IsGoeQuG0jpWgG5ehwPkRMDWgmfyzjv" 0 (by decide)).1,
   C4_exit_behavior.2.2.2.2.1 0 .transportError .transportError rfl rfl,
   C4_exit_behavior.2.2.2.2.2.1 .transportError rfl⟩

/-- C5: with no token stored, `crawl_url` and `get_crawl_history`
return `None` immediately and issue no HTTP request. -/
theorem C5_no_token_short_circuit (c : CrawlioClient) (url : String)
    (options : Option Json) (net : NetResult) (h : c.api_key = none) :
    (crawl_url c url options net).result = none ∧
    (crawl_url c url options net).net = false ∧
    (get_crawl_history c net).result = none ∧
    (get_crawl_history c net).net = false := by
  unfold crawl_url get_crawl_history
  simp [h, optTruthy]

/-- C5 witness: a freshly constructed client at a transport-error
outcome. -/
theorem C5_witness :
    (crawl_url (CrawlioClient.init "http://localhost:3002") "https://www.wikipedia.org/"
      none .transportError).result = none ∧
    (crawl_url (CrawlioClient.init "http://localhost:3002") "https://www.wikipedia.org/"
      none .transportError).net = false ∧
    (get_crawl_history (CrawlioClient.init "http://localhost:3002")
      .transportError).result = none ∧
    (get_crawl_history (CrawlioClient.init "http://localhost:3002")
      .transportError).net = false :=
  C5_no_token_short_circuit (CrawlioClient.init "http://localhost:3002")
    "https://www.wikipedia.org/" none .transportError rfl

/-- C6 fails as stated: a success body containing the token field with
an empty-string value stores that value but reports failure, because
the success test is a truthiness test. -/
theorem C6_counterexample :
    ((JsonObj.cons "api_key" (.str "") .nil).getLast "api_key" = some (.str "")) ∧
    (register_user (CrawlioClient.init "http://localhost:3002") "e" "p" "f" "l"
      (.success (.obj (.cons "api_key" (.str "") .nil)))).result = some false := by
  decide

/-- C6 (amended): for any registration inputs, a success body whose
token field holds a truthy value results in the stored token equaling
that value and the operation returning `True`. -/
theorem C6_register_success (c : CrawlioClient) (email pw fn ln : String)
    (m : JsonObj) (v : Json) (hv : m.pyGet "api_key" = some v) (ht : v.truthy = true) :
    (register_user c email pw fn ln (.success (.obj m))).state.api_key = some v ∧
    (register_user c email pw fn ln (.success (.obj m))).result = some true := by
  unfold register_user
  simp [hv, optTruthy, ht]

/-- C6 witness: a fresh client and a body carrying a token string. -/
theorem C6_witness :
    (register_user (CrawlioClient.init "http://localhost:3002") "e" "p" "f" "l"
      (.success (.obj (.cons "api_key" (.str "K") .nil)))).state.api_key
        = some (.str "K") ∧
    (register_user (CrawlioClient.init "http://localhost:3002") "e" "p" "f" "l"
      (.success (.obj (.cons "api_key" (.str "K") .nil)))).result = some true :=
  C6_register_success (CrawlioClient.init "http://localhost:3002") "e" "p" "f" "l"
    (.cons "api_key" (.str "K") .nil) (.str "K") (by decide) (by decide)

/-- C7: a failure status or a connection error on any of the three
operations yields the failure result (`False` for register, `None` for
crawl and history) and returns normally — no error escapes the
operation (`some`/total results, never the uncaught-exception
outcome). -/
theorem C7_error_failure (c : CrawlioClient) (email pw fn ln url : String)
    (options : Option Json) :
    ((register_user c email pw fn ln .transportError).result = some false) ∧
    (∀ st b, (register_user c email pw fn ln (.httpError st b)).result = some false) ∧
    ((crawl_url c url options .transportError).result = none) ∧
    (∀ st b, (crawl_url c url options (.httpError st b)).result = none) ∧
    ((get_crawl_history c .transportError).result = none) ∧
    (∀ st b, (get_crawl_history c (.httpError st b)).result = none) := by
  refine ⟨rfl, fun st b => rfl, ?_, fun st b => ?_, ?_, fun st b => ?_⟩ <;>
    · first
      | (unfold crawl_url
         by_cases h : optTruthy c.api_key = true
         · simp [h]
         · simp only [Bool.not_eq_true] at h
           simp [h])
      | (unfold get_crawl_history
         by_cases h : optTruthy c.api_key = true
         · simp [h]
         · simp only [Bool.not_eq_true] at h
           simp [h])

/-- C9: `crawl_url` and `get_crawl_history` leave the whole client
state — token, base address, session handle — unchanged on every
outcome; `register_user` preserves the base address and session, and
its only write to the token is the single assignment of
`data.get('api_key')` on a success response. -/
theorem C9_frame (c : CrawlioClient) (email pw fn ln url : String)
    (options : Option Json) (net : NetResult) :
    (crawl_url c url options net).state = c ∧
    (get_crawl_history c net).state = c ∧
    (register_user c email pw fn ln net).state.base_url = c.base_url ∧
    (register_user c email pw fn ln net).state.session = c.session ∧
    ((register_user c email pw fn ln net).state.api_key = c.api_key ∨
      ∃ m : JsonObj, net = .success (.obj m) ∧
        (register_user c email pw fn ln net).state.api_key = m.pyGet "api_key") := by
  refine ⟨?_, ?_, ?_⟩
  · unfold crawl_url
    split
    · cases net <;> rfl
    · rfl
  · unfold get_crawl_history
    split
    · cases net <;> rfl
    · rfl
  · cases net with
    | transportError => exact ⟨rfl, rfl, Or.inl rfl⟩
    | httpError st b => exact ⟨rfl, rfl, Or.inl rfl⟩
    | success body =>
        cases body with
        | obj m =>
            have h1 : (register_user c email pw fn ln
                (.success (.obj m))).state.base_url = c.base_url := by
              simp only [register_user]
              split <;> rfl
            have h2 : (register_user c email pw fn ln
                (.success (.obj m))).state.session = c.session := by
              simp only [register_user]
              split <;> rfl
            have h3 : (register_user c email pw fn ln
                (.success (.obj m))).state.api_key = m.pyGet "api_key" := by
              simp only [register_user]
              split <;> rfl
            exact ⟨h1, h2, Or.inr ⟨m, rfl, h3⟩⟩
        | null => exact ⟨rfl, rfl, Or.inl rfl⟩
        | bool b => exact ⟨rfl, rfl, Or.inl rfl⟩
        | num n => exact ⟨rfl, rfl, Or.inl rfl⟩
        | str s => exact ⟨rfl, rfl, Or.inl rfl⟩
        | arr l => exact ⟨rfl, rfl, Or.inl rfl⟩

/-- C10: a token externally assigned the empty string is falsy, so
`crawl_url` and `get_crawl_history` fail immediately without issuing a
request, exactly as with an absent token. -/
theorem C10_empty_token (c : CrawlioClient) (url : String) (options : Option Json)
    (net : NetResult) (h : c.api_key = some (.str "")) :
    (crawl_url c url options net).result = none ∧
    (crawl_url c url options net).net = false ∧
    (get_crawl_history c net).result = none ∧
    (get_crawl_history c net).net = false := by
  unfold crawl_url get_crawl_history
  simp [h, optTruthy, Json.truthy]

/-- C10 witness: a client whose token was assigned the empty string. -/
theorem C10_witness :
    (crawl_url { base_url := "http://localhost:3002", api_key := some (.str ""), session := 0 }
      "https://www.wikipedia.org/" none .transportError).result = none ∧
    (crawl_url { base_url := "http://localhost:3002", api_key := some (.str ""), session := 0 }
      "https://www.wikipedia.org/" none .transportError).net = false ∧
    (get_crawl_history
      { base_url := "http://localhost:3002", api_key := some (.str ""), session := 0 }
      .transportError).result = none ∧
    (get_crawl_history
      { base_url := "http://localhost:3002", api_key := some (.str ""), session := 0 }
      .transportError).net = false :=
  C10_empty_token
    { base_url := "http://localhost:3002", api_key := some (.str ""), session := 0 }
    "https://www.wikipedia.org/" none .transportError rfl

/-! ### Round-trip of the file write (`loads` after `dump`)

The lemmas below establish that parsing the serializer's output
recovers the document exactly, leading to `loads_dumpJson` and the C8
theorem. -/

theorem skipWs_cons_not (c : Char) (s : List Char) (h : isJsonWs c = false) :
    skipWs (c :: s) = c :: s := by
  simp [skipWs, h]

theorem skipWs_newline (s : List Char) : skipWs ('\n' :: s) = skipWs s := by
  simp [skipWs, isJsonWs]

theorem skipWs_space (s : List Char) : skipWs (' ' :: s) = skipWs s := by
  simp [skipWs, isJsonWs]

theorem skipWs_indent (n : Nat) (s : List Char) :
    skipWs (indentChars n ++ s) = skipWs s := by
  induction n with
  | zero => rfl
  | succ k ih =>
      have : indentChars (k + 1) = ' ' :: indentChars k := by
        simp [indentChars, List.replicate_succ]
      rw [this, List.cons_append]
      simpa [skipWs, isJsonWs] using ih

theorem skipWs_replicate (n : Nat) (s : List Char) :
    skipWs (List.replicate n ' ' ++ s) = skipWs s := by
  induction n with
  | zero => rfl
  | succ k ih => simpa [List.replicate_succ, skipWs, isJsonWs] using ih

theorem digitVal?_bounds (c : Char) (d : Nat) (h : digitVal? c = some d) :
    '0' ≤ c ∧ c ≤ '9' := by
  by_cases hb : '0' ≤ c ∧ c ≤ '9'
  · exact hb
  · simp [digitVal?, hb] at h

/-- Identity facts about a character known to be a decimal digit: it is
not whitespace and not any of the dispatch characters of the
grammar. -/
theorem digit_head_facts (c : Char) (d : Nat) (h : digitVal? c = some d) :
    isJsonWs c = false ∧ c ≠ 'n' ∧ c ≠ 't' ∧ c ≠ 'f' ∧ c ≠ '"' ∧ c ≠ '-' ∧
      c ≠ '[' ∧ c ≠ '\x7b' ∧ c ≠ ']' := by
  obtain ⟨hge, hle⟩ := digitVal?_bounds c d h
  have hsp : c ≠ ' ' := by rintro rfl; exact absurd hge (by decide)
  have hhtab : c ≠ '\t' := by rintro rfl; exact absurd hge (by decide)
  have hnl : c ≠ '\n' := by rintro rfl; exact absurd hge (by decide)
  have hcr : c ≠ '\r' := by rintro rfl; exact absurd hge (by decide)
  refine ⟨by simp [isJsonWs, hsp, hhtab, hnl, hcr], ?_, ?_, ?_, ?_, ?_, ?_, ?_, ?_⟩
  · rintro rfl; exact absurd hle (by decide)
  · rintro rfl; exact absurd hle (by decide)
  · rintro rfl; exact absurd hle (by decide)
  · rintro rfl; exact absurd hge (by decide)
  · rintro rfl; exact absurd hge (by decide)
  · rintro rfl; exact absurd hle (by decide)
  · rintro rfl; exact absurd hle (by decide)
  · rintro rfl; exact absurd hle (by decide)

theorem digitVal?_hexDigitChar (d : Nat) (h : d < 10) :
    digitVal? (hexDigitChar d) = some d := by
  interval_cases d <;> decide

theorem parseDigits_stop (s : List Char) (acc : Nat) (h : headDigit s = false) :
    parseDigits s acc = (acc, s) := by
  cases s with
  | nil => rfl
  | cons c t =>
      have : digitVal? c = none := by
        cases hv : digitVal? c with
        | none => rfl
        | some d => simp [headDigit, hv] at h
      simp [parseDigits, this]

theorem parseDigits_natDigits (m : Nat) : ∀ (acc : Nat) (s : List Char),
    parseDigits (natDigits m ++ s) acc
      = parseDigits s (acc * 10 ^ (natDigits m).length + m) := by
  induction m using Nat.strong_induction_on with
  | _ m ih =>
      intro acc s
      by_cases h : m < 10
      · rw [natDigits]
        simp only [h, dif_pos]
        simp [parseDigits, digitVal?_hexDigitChar m h]
      · have hd : natDigits m = natDigits (m / 10) ++ [hexDigitChar (m % 10)] := by
          rw [natDigits]
          simp [h]
        have hm : m / 10 < m := Nat.div_lt_self (by omega) (by omega)
        rw [hd, List.append_assoc, List.singleton_append,
          ih (m / 10) hm acc (hexDigitChar (m % 10) :: s)]
        have h10 : m % 10 < 10 := Nat.mod_lt m (by omega)
        simp only [parseDigits, digitVal?_hexDigitChar (m % 10) h10,
          List.length_append, List.length_singleton]
        congr 1
        have hdm := Nat.div_add_mod m 10
        rw [pow_succ]
        ring_nf
        omega

theorem natDigits_head (m : Nat) :
    ∃ c cs d, natDigits m = c :: cs ∧ digitVal? c = some d := by
  induction m using Nat.strong_induction_on with
  | _ m ih =>
      by_cases h : m < 10
      · refine ⟨hexDigitChar m, [], m, ?_, digitVal?_hexDigitChar m h⟩
        rw [natDigits]
        simp [h]
      · have hm : m / 10 < m := Nat.div_lt_self (by omega) (by omega)
        obtain ⟨c, cs, d, hnd, hdv⟩ := ih (m / 10) hm
        refine ⟨c, cs ++ [hexDigitChar (m % 10)], d, ?_, hdv⟩
        rw [natDigits]
        simp [h, hnd]

theorem parseNum_natDigits (m : Nat) (s : List Char) (h : headDigit s = false) :
    parseNum (natDigits m ++ s) = some (m, s) := by
  obtain ⟨c, cs, d, hnd, hdv⟩ := natDigits_head m
  have key : parseDigits (natDigits m ++ s) 0 = (m, s) := by
    rw [parseDigits_natDigits m 0 s]
    simpa using parseDigits_stop s m h
  rw [hnd] at key ⊢
  rw [List.cons_append] at key ⊢
  simp only [parseDigits, hdv] at key
  simp only [Nat.zero_mul, Nat.zero_add] at key
  simp [parseNum, hdv, key]

theorem hexVal?_hexDigitChar (d : Nat) (h : d < 16) :
    hexVal? (hexDigitChar d) = some d := by
  interval_cases d <;> decide

/-- Parsing a string-literal body inverts the escaper, given fuel
beyond the number of decoded characters. -/
theorem parseStringBody_escape (cs : List Char) : ∀ (n : Nat) (rest : List Char),
    cs.length < n →
    parseStringBody n (escapeString cs ++ '"' :: rest) = some (cs, rest) := by
  induction cs with
  | nil =>
      intro n rest h
      cases n with
      | zero => exact absurd h (by omega)
      | succ m => rfl
  | cons c cs ih =>
      intro n rest h
      cases n with
      | zero => exact absurd h (by omega)
      | succ m =>
        have hlen : cs.length < m := by
          simpa using Nat.lt_of_succ_lt_succ h
        have ihm := ih m rest hlen
        show parseStringBody (m + 1) ((escapeChar c ++ escapeString cs) ++ '"' :: rest) = _
        rw [List.append_assoc]
        by_cases h1 : c = '"'
        · subst h1; simp [escapeChar, parseStringBody, ihm]
        · by_cases h2 : c = '\\'
          · subst h2; simp [escapeChar, parseStringBody, ihm]
          · by_cases h3 : c = '\n'
            · subst h3; simp [escapeChar, parseStringBody, ihm]
            · by_cases h4 : c = '\t'
              · subst h4; simp [escapeChar, parseStringBody, ihm]
              · by_cases h5 : c = '\r'
                · subst h5; simp [escapeChar, parseStringBody, ihm]
                · by_cases h6 : c = '\x08'
                  · subst h6; simp [escapeChar, parseStringBody, ihm]
                  · by_cases h7 : c = '\x0c'
                    · subst h7; simp [escapeChar, parseStringBody, ihm]
                    · by_cases h8 : c.toNat < 32
                      · have ha : hexVal? (hexDigitChar (c.toNat / 16))
                            = some (c.toNat / 16) :=
                          hexVal?_hexDigitChar _ (by omega)
                        have hb : hexVal? (hexDigitChar (c.toNat % 16))
                            = some (c.toNat % 16) :=
                          hexVal?_hexDigitChar _ (Nat.mod_lt _ (by omega))
                        have harith : c.toNat / 16 * 16 + c.toNat % 16 = c.toNat := by
                          omega
                        have h0 : hexVal? '0' = some 0 := by decide
                        simp [escapeChar, h1, h2, h3, h4, h5, h6, h7, h8,
                          parseStringBody, ha, hb, h0, harith, Char.ofNat_toNat, ihm]
                      · simp [escapeChar, h1, h2, h3, h4, h5, h6, h7, h8,
                          parseStringBody, ihm]

/-- The serialization of any value starts with a visible character that
is not a closing bracket. -/
theorem dumpVal_head (j : Json) (ind : Nat) :
    ∃ c cs, dumpVal j ind = c :: cs ∧ isJsonWs c = false ∧ c ≠ ']' := by
  cases j with
  | null => exact ⟨'n', _, rfl, by decide, by decide⟩
  | bool b =>
      cases b with
      | false => exact ⟨'f', _, rfl, by decide, by decide⟩
      | true => exact ⟨'t', _, rfl, by decide, by decide⟩
  | num n =>
      by_cases hn : n < 0
      · exact ⟨'-', natDigits (-n).toNat, by simp [dumpVal, intChars, hn], by decide, by decide⟩
      · obtain ⟨c, cs, d, hnd, hdv⟩ := natDigits_head n.toNat
        obtain ⟨hw, _, _, _, _, _, _, _, hbr⟩ := digit_head_facts c d hdv
        exact ⟨c, cs, by simp [dumpVal, intChars, hn, hnd], hw, hbr⟩
  | str s => exact ⟨'"', _, rfl, by decide, by decide⟩
  | arr l =>
      cases l with
      | nil => exact ⟨'[', _, rfl, by decide, by decide⟩
      | cons x xs => exact ⟨'[', _, rfl, by decide, by decide⟩
  | obj m =>
      cases m with
      | nil => exact ⟨'\x7b', _, rfl, by decide, by decide⟩
      | cons k v ms => exact ⟨'\x7b', _, rfl, by decide, by decide⟩

theorem skipWs_dumpVal (j : Json) (ind : Nat) (r : List Char) :
    skipWs (dumpVal j ind ++ r) = dumpVal j ind ++ r := by
  obtain ⟨c, cs, he, hw, _⟩ := dumpVal_head j ind
  rw [he, List.cons_append, skipWs_cons_not c _ hw]

theorem headDigit_dumpRest (xs : JsonList) (ind : Nat) (z : List Char) :
    headDigit (dumpRest xs ind ++ '\n' :: z) = false := by
  cases xs with
  | nil => rfl
  | cons x tl => rfl

theorem headDigit_dumpMembersRest (ms : JsonObj) (ind : Nat) (z : List Char) :
    headDigit (dumpMembersRest ms ind ++ '\n' :: z) = false := by
  cases ms with
  | nil => rfl
  | cons k v tl => rfl

theorem pfuel_pos (j : Json) : 1 ≤ j.pfuel := by
  cases j with
  | null => simp [Json.pfuel]
  | bool b => simp [Json.pfuel]
  | num n => simp [Json.pfuel]
  | str s => simp [Json.pfuel]
  | arr l => cases l <;> simp [Json.pfuel]
  | obj m => cases m <;> simp [Json.pfuel]

theorem pfuelL_pos (xs : JsonList) : 1 ≤ xs.pfuelL := by
  cases xs <;> simp [JsonList.pfuelL]

theorem pfuelO_pos (ms : JsonObj) : 1 ≤ ms.pfuelO := by
  cases ms <;> simp [JsonObj.pfuelO]

theorem escapeChar_length_pos (c : Char) : 1 ≤ (escapeChar c).length := by
  unfold escapeChar
  repeat' split
  all_goals simp

theorem escapeString_length (cs : List Char) : cs.length ≤ (escapeString cs).length := by
  induction cs with
  | nil => simp [escapeString]
  | cons c cs ih =>
      have := escapeChar_length_pos c
      simp only [escapeString, List.length_append, List.length_cons]
      omega

/-- A character carrying a digit value is one of the ten digits. -/
theorem digit_char_eq (c : Char) (d : Nat) (h : digitVal? c = some d) :
    c = '0' ∨ c = '1' ∨ c = '2' ∨ c = '3' ∨ c = '4' ∨ c = '5' ∨ c = '6' ∨ c = '7' ∨
      c = '8' ∨ c = '9' := by
  obtain ⟨hge, hle⟩ := digitVal?_bounds c d h
  have hc : c = Char.ofNat c.toNat := (Char.ofNat_toNat c).symm
  have h1 : 48 ≤ c.toNat := hge
  have h2 : c.toNat ≤ 57 := hle
  interval_cases hv : c.toNat <;> (rw [hc]; decide)

/-- On a digit-headed input the value parser dispatches to the number
parser. -/
theorem parseVal_digit_head (m : Nat) (c : Char) (d : Nat) (z : List Char)
    (h : digitVal? c = some d) :
    parseVal (m + 1) (c :: z)
      = (parseNum (c :: z)).map (fun p => (.num (p.1 : Int), p.2)) := by
  rcases digit_char_eq c d h with rfl|rfl|rfl|rfl|rfl|rfl|rfl|rfl|rfl|rfl <;> rfl

mutual

/-- Parsing inverts serialization on one value, for fuel at least the
value's `pfuel` and a continuation that does not start with a digit. -/
theorem parseVal_dump : ∀ (j : Json) (n ind : Nat) (rest : List Char),
    Json.pfuel j ≤ n → headDigit rest = false →
    parseVal n (dumpVal j ind ++ rest) = some (j, rest)
  | .null, n, _, rest, hf, _ => by
      cases n with
      | zero => simp [Json.pfuel] at hf
      | succ m => rfl
  | .bool b, n, _, rest, hf, _ => by
      cases n with
      | zero => simp [Json.pfuel] at hf
      | succ m => cases b <;> rfl
  | .num v, n, ind, rest, hf, hr => by
      cases n with
      | zero => simp [Json.pfuel] at hf
      | succ m =>
          show parseVal (m + 1) (intChars v ++ rest) = some (.num v, rest)
          by_cases hn : v < 0
          · have hm : parseNum (natDigits (-v).toNat ++ rest) = some ((-v).toNat, rest) :=
              parseNum_natDigits _ rest hr
            have htn : (((-v).toNat : Int)) = -v := Int.toNat_of_nonneg (by omega)
            simp [intChars, hn, parseVal, hm, htn]
          · have hm := parseNum_natDigits v.toNat rest hr
            obtain ⟨c, cs, d, hnd, hdv⟩ := natDigits_head v.toNat
            have hIn : intChars v ++ rest = c :: (cs ++ rest) := by
              simp [intChars, hn, hnd]
            rw [hIn, parseVal_digit_head m c d _ hdv]
            rw [← List.cons_append, ← hnd, hm]
            have htn : ((v.toNat : Int)) = v := Int.toNat_of_nonneg (by omega)
            simp [htn]
  | .str s, n, ind, rest, hf, _ => by
      cases n with
      | zero => simp [Json.pfuel] at hf
      | succ m =>
          show parseVal (m + 1) (quoteString s ++ rest) = some (.str s, rest)
          have hq : quoteString s ++ rest
              = '"' :: (escapeString s.data ++ '"' :: rest) := by
            simp [quoteString]
          have hesc := parseStringBody_escape s.data
            ((escapeString s.data ++ '"' :: rest).length + 1) rest
            (by
              have := escapeString_length s.data
              simp only [List.length_append, List.length_cons]
              omega)
          simp only [List.length_append, List.length_cons] at hesc
          rw [hq]
          simp only [parseVal]
          simp only [List.length_append, List.length_cons]
          rw [hesc]
          rfl
  | .arr .nil, n, ind, rest, hf, _ => by
      cases n with
      | zero => simp [Json.pfuel] at hf
      | succ m => rfl
  | .arr (.cons x xs), n, ind, rest, hf, hr => by
      cases n with
      | zero => simp [Json.pfuel] at hf
      | succ m =>
          have h1 : max x.pfuel xs.pfuelL ≤ m := by
            simp [Json.pfuel] at hf
            omega
          have hx : x.pfuel ≤ m := le_trans (le_max_left _ _) h1
          have hxs : xs.pfuelL ≤ m := le_trans (le_max_right _ _) h1
          have hshape : dumpVal (.arr (.cons x xs)) ind ++ rest
              = '[' :: '\n' :: (indentChars (ind + 2) ++ (dumpVal x (ind + 2)
                ++ (dumpRest xs (ind + 2)
                  ++ '\n' :: (indentChars ind ++ ']' :: rest)))) := by
            simp [dumpVal]
          obtain ⟨cx, csx, hx1, hwx, hbx⟩ := dumpVal_head x (ind + 2)
          have hd1 : headDigit (dumpRest xs (ind + 2)
              ++ '\n' :: (indentChars ind ++ ']' :: rest)) = false :=
            headDigit_dumpRest xs (ind + 2) _
          have ih1 : parseVal m (cx :: (csx
              ++ (dumpRest xs (ind + 2) ++ '\n' :: (indentChars ind ++ ']' :: rest))))
              = some (x, dumpRest xs (ind + 2)
                ++ '\n' :: (indentChars ind ++ ']' :: rest)) := by
            rw [← List.cons_append, ← hx1]
            exact parseVal_dump x m (ind + 2) _ hx hd1
          have ih2 : parseItems m (dumpRest xs (ind + 2)
              ++ '\n' :: (indentChars ind ++ ']' :: rest)) = some (xs, rest) :=
            parseItems_dump xs m (ind + 2) ind rest hxs hr
          have hskip := skipWs_cons_not cx
            (csx ++ (dumpRest xs (ind + 2) ++ '\n' :: (indentChars ind ++ ']' :: rest)))
            hwx
          rw [hshape]
          simp [parseVal, skipWs_newline, skipWs_indent, hx1, hskip, hbx, ih1, ih2]
  | .obj .nil, n, ind, rest, hf, _ => by
      cases n with
      | zero => simp [Json.pfuel] at hf
      | succ m => rfl
  | .obj (.cons k v ms), n, ind, rest, hf, hr => by
      cases n with
      | zero => simp [Json.pfuel] at hf
      | succ m =>
          have h1 : max v.pfuel ms.pfuelO ≤ m := by
            simp [Json.pfuel] at hf
            omega
          have hv : v.pfuel ≤ m := le_trans (le_max_left _ _) h1
          have hms : ms.pfuelO ≤ m := le_trans (le_max_right _ _) h1
          have hshape : dumpVal (.obj (.cons k v ms)) ind ++ rest
              = '\x7b' :: '\n' :: (indentChars (ind + 2) ++ ('"' ::
                (escapeString k.data ++ '"' ::
                  (':' :: ' ' :: (dumpVal v (ind + 2)
                    ++ (dumpMembersRest ms (ind + 2)
                      ++ '\n' :: (indentChars ind ++ '\x7d' :: rest))))))) := by
            simp [dumpVal, quoteString]
          have hesc := parseStringBody_escape k.data
            ((escapeString k.data ++ '"' ::
              (':' :: ' ' :: (dumpVal v (ind + 2)
                ++ (dumpMembersRest ms (ind + 2)
                  ++ '\n' :: (indentChars ind ++ '\x7d' :: rest))))).length + 1)
            (':' :: ' ' :: (dumpVal v (ind + 2)
              ++ (dumpMembersRest ms (ind + 2)
                ++ '\n' :: (indentChars ind ++ '\x7d' :: rest))))
            (by
              have := escapeString_length k.data
              simp only [List.length_append, List.length_cons]
              omega)
          have hd1 : headDigit (dumpMembersRest ms (ind + 2)
              ++ '\n' :: (indentChars ind ++ '\x7d' :: rest)) = false :=
            headDigit_dumpMembersRest ms (ind + 2) _
          have ih1 : parseVal m (dumpVal v (ind + 2)
              ++ (dumpMembersRest ms (ind + 2)
                ++ '\n' :: (indentChars ind ++ '\x7d' :: rest)))
              = some (v, dumpMembersRest ms (ind + 2)
                ++ '\n' :: (indentChars ind ++ '\x7d' :: rest)) :=
            parseVal_dump v m (ind + 2) _ hv hd1
          have ih2 : parseMembers m (dumpMembersRest ms (ind + 2)
              ++ '\n' :: (indentChars ind ++ '\x7d' :: rest)) = some (ms, rest) :=
            parseMembers_dump ms m (ind + 2) ind rest hms hr
          have hsq := skipWs_cons_not '"'
            (escapeString k.data ++ '"' ::
              (':' :: ' ' :: (dumpVal v (ind + 2)
                ++ (dumpMembersRest ms (ind + 2)
                  ++ '\n' :: (indentChars ind ++ '\x7d' :: rest)))))
            (by decide)
          have hsc := skipWs_cons_not ':'
            (' ' :: (dumpVal v (ind + 2)
              ++ (dumpMembersRest ms (ind + 2)
                ++ '\n' :: (indentChars ind ++ '\x7d' :: rest))))
            (by decide)
          simp only [List.length_append, List.length_cons] at hesc
          rw [hshape]
          simp [parseVal, skipWs_newline, skipWs_indent, skipWs_space, skipWs_dumpVal,
            hsq, hsc, hesc, ih1, ih2]

/-- Parsing the trailing items of a serialized array, up to the closing
bracket. -/
theorem parseItems_dump : ∀ (xs : JsonList) (n ind ind2 : Nat) (rest : List Char),
    JsonList.pfuelL xs ≤ n → headDigit rest = false →
    parseItems n (dumpRest xs ind ++ '\n' :: (indentChars ind2 ++ ']' :: rest))
      = some (xs, rest)
  | .nil, n, ind, ind2, rest, hf, _ => by
      cases n with
      | zero => simp [JsonList.pfuelL] at hf
      | succ m =>
          simp [dumpRest, parseItems, skipWs_newline, skipWs_indent, skipWs, isJsonWs]
  | .cons x xs, n, ind, ind2, rest, hf, hr => by
      cases n with
      | zero => simp [JsonList.pfuelL] at hf
      | succ m =>
          have h1 : max x.pfuel xs.pfuelL ≤ m := by
            simp [JsonList.pfuelL] at hf
            omega
          have hx : x.pfuel ≤ m := le_trans (le_max_left _ _) h1
          have hxs : xs.pfuelL ≤ m := le_trans (le_max_right _ _) h1
          have hshape : dumpRest (.cons x xs) ind
              ++ '\n' :: (indentChars ind2 ++ ']' :: rest)
              = ',' :: '\n' :: (indentChars ind ++ (dumpVal x ind
                ++ (dumpRest xs ind ++ '\n' :: (indentChars ind2 ++ ']' :: rest)))) := by
            simp [dumpRest]
          obtain ⟨cx, csx, hx1, hwx, hbx⟩ := dumpVal_head x ind
          have hd1 : headDigit (dumpRest xs ind
              ++ '\n' :: (indentChars ind2 ++ ']' :: rest)) = false :=
            headDigit_dumpRest xs ind _
          have ih1 : parseVal m (dumpVal x ind
              ++ (dumpRest xs ind ++ '\n' :: (indentChars ind2 ++ ']' :: rest)))
              = some (x, dumpRest xs ind
                ++ '\n' :: (indentChars ind2 ++ ']' :: rest)) :=
            parseVal_dump x m ind _ hx hd1
          have ih2 : parseItems m (dumpRest xs ind
              ++ '\n' :: (indentChars ind2 ++ ']' :: rest)) = some (xs, rest) :=
            parseItems_dump xs m ind ind2 rest hxs hr
          rw [hshape]
          simp [parseItems, skipWs_newline, skipWs_indent, skipWs_dumpVal, skipWs,
            isJsonWs, ih1, ih2]

/-- Parsing the trailing members of a serialized object, up to the
closing brace. -/
theorem parseMembers_dump : ∀ (ms : JsonObj) (n ind ind2 : Nat) (rest : List Char),
    JsonObj.pfuelO ms ≤ n → headDigit rest = false →
    parseMembers n
      (dumpMembersRest ms ind ++ '\n' :: (indentChars ind2 ++ '\x7d' :: rest))
      = some (ms, rest)
  | .nil, n, ind, ind2, rest, hf, _ => by
      cases n with
      | zero => simp [JsonObj.pfuelO] at hf
      | succ m =>
          simp [dumpMembersRest, parseMembers, skipWs_newline, skipWs_indent, skipWs,
            isJsonWs]
  | .cons k v ms, n, ind, ind2, rest, hf, hr => by
      cases n with
      | zero => simp [JsonObj.pfuelO] at hf
      | succ m =>
          have h1 : max v.pfuel ms.pfuelO ≤ m := by
            simp [JsonObj.pfuelO] at hf
            omega
          have hv : v.pfuel ≤ m := le_trans (le_max_left _ _) h1
          have hms : ms.pfuelO ≤ m := le_trans (le_max_right _ _) h1
          have hshape : dumpMembersRest (.cons k v ms) ind
              ++ '\n' :: (indentChars ind2 ++ '\x7d' :: rest)
              = ',' :: '\n' :: (indentChars ind ++ ('"' ::
                (escapeString k.data ++ '"' ::
                  (':' :: ' ' :: (dumpVal v ind
                    ++ (dumpMembersRest ms ind
                      ++ '\n' :: (indentChars ind2 ++ '\x7d' :: rest))))))) := by
            simp [dumpMembersRest, quoteString]
          have hesc := parseStringBody_escape k.data
            ((escapeString k.data ++ '"' ::
              (':' :: ' ' :: (dumpVal v ind
                ++ (dumpMembersRest ms ind
                  ++ '\n' :: (indentChars ind2 ++ '\x7d' :: rest))))).length + 1)
            (':' :: ' ' :: (dumpVal v ind
              ++ (dumpMembersRest ms ind
                ++ '\n' :: (indentChars ind2 ++ '\x7d' :: rest))))
            (by
              have := escapeString_length k.data
              simp only [List.length_append, List.length_cons]
              omega)
          have hd1 : headDigit (dumpMembersRest ms ind
              ++ '\n' :: (indentChars ind2 ++ '\x7d' :: rest)) = false :=
            headDigit_dumpMembersRest ms ind _
          have ih1 : parseVal m (dumpVal v ind
              ++ (dumpMembersRest ms ind
                ++ '\n' :: (indentChars ind2 ++ '\x7d' :: rest)))
              = some (v, dumpMembersRest ms ind
                ++ '\n' :: (indentChars ind2 ++ '\x7d' :: rest)) :=
            parseVal_dump v m ind _ hv hd1
          have ih2 : parseMembers m (dumpMembersRest ms ind
              ++ '\n' :: (indentChars ind2 ++ '\x7d' :: rest)) = some (ms, rest) :=
            parseMembers_dump ms m ind ind2 rest hms hr
          have hsq := skipWs_cons_not '"'
            (escapeString k.data ++ '"' ::
              (':' :: ' ' :: (dumpVal v ind
                ++ (dumpMembersRest ms ind
                  ++ '\n' :: (indentChars ind2 ++ '\x7d' :: rest)))))
            (by decide)
          have hsc := skipWs_cons_not ':'
            (' ' :: (dumpVal v ind
              ++ (dumpMembersRest ms ind
                ++ '\n' :: (indentChars ind2 ++ '\x7d' :: rest))))
            (by decide)
          have hscm := skipWs_cons_not ','
            ('\n' :: (indentChars ind ++ '"' ::
              (escapeString k.data ++ '"' ::
                (':' :: ' ' :: (dumpVal v ind
                  ++ (dumpMembersRest ms ind
                    ++ '\n' :: (indentChars ind2 ++ '\x7d' :: rest)))))))
            (by decide)
          simp only [List.length_append, List.length_cons] at hesc
          rw [hshape]
          simp [parseMembers, skipWs_newline, skipWs_indent, skipWs_space, skipWs_dumpVal,
            hscm, hsq, hsc, hesc, ih1, ih2]

end

mutual

/-- The fuel a serialized value needs is at most its length. -/
theorem pfuel_le_dump : ∀ (j : Json) (ind : Nat),
    Json.pfuel j ≤ (dumpVal j ind).length
  | .null, ind => by simp [Json.pfuel, dumpVal]
  | .bool b, ind => by cases b <;> simp [Json.pfuel, dumpVal]
  | .num v, ind => by
      simp only [Json.pfuel, dumpVal]
      by_cases hn : v < 0
      · simp [intChars, hn]
      · obtain ⟨c, cs, d, hnd, _⟩ := natDigits_head v.toNat
        simp [intChars, hn, hnd]
  | .str s, ind => by simp [Json.pfuel, dumpVal, quoteString]
  | .arr .nil, ind => by simp [Json.pfuel, dumpVal]
  | .arr (.cons x xs), ind => by
      have h1 := pfuel_le_dump x (ind + 2)
      have h2 := pfuelL_le_dump xs (ind + 2)
      have hmax : max x.pfuel xs.pfuelL
          ≤ (dumpVal x (ind + 2)).length + (dumpRest xs (ind + 2)).length + 1 :=
        max_le (by omega) (by omega)
      simp only [Json.pfuel, dumpVal, List.length_cons, List.length_append,
        indentChars, List.length_replicate]
      omega
  | .obj .nil, ind => by simp [Json.pfuel, dumpVal]
  | .obj (.cons k v ms), ind => by
      have h1 := pfuel_le_dump v (ind + 2)
      have h2 := pfuelO_le_dump ms (ind + 2)
      have hmax : max v.pfuel ms.pfuelO
          ≤ (dumpVal v (ind + 2)).length + (dumpMembersRest ms (ind + 2)).length + 1 :=
        max_le (by omega) (by omega)
      simp only [Json.pfuel, dumpVal, quoteString, List.length_cons, List.length_append,
        indentChars, List.length_replicate]
      omega

theorem pfuelL_le_dump : ∀ (xs : JsonList) (ind : Nat),
    JsonList.pfuelL xs ≤ (dumpRest xs ind).length + 1
  | .nil, ind => by simp [JsonList.pfuelL, dumpRest]
  | .cons x xs, ind => by
      have h1 := pfuel_le_dump x ind
      have h2 := pfuelL_le_dump xs ind
      have hmax : max x.pfuel xs.pfuelL
          ≤ (dumpVal x ind).length + (dumpRest xs ind).length + 1 :=
        max_le (by omega) (by omega)
      simp only [JsonList.pfuelL, dumpRest, List.length_cons, List.length_append,
        indentChars, List.length_replicate]
      omega

theorem pfuelO_le_dump : ∀ (ms : JsonObj) (ind : Nat),
    JsonObj.pfuelO ms ≤ (dumpMembersRest ms ind).length + 1
  | .nil, ind => by simp [JsonObj.pfuelO, dumpMembersRest]
  | .cons k v ms, ind => by
      have h1 := pfuel_le_dump v ind
      have h2 := pfuelO_le_dump ms ind
      have hmax : max v.pfuel ms.pfuelO
          ≤ (dumpVal v ind).length + (dumpMembersRest ms ind).length + 1 :=
        max_le (by omega) (by omega)
      simp only [JsonObj.pfuelO, dumpMembersRest, quoteString, List.length_cons,
        List.length_append, indentChars, List.length_replicate]
      omega

end

/-- `json.loads` inverts `json.dump(..., indent=2, ensure_ascii=False)`
on every document. -/
theorem loads_dumpJson (j : Json) : loads (dumpJson j) = some j := by
  unfold loads dumpJson
  have hsw : skipWs (dumpVal j 0) = dumpVal j 0 := by
    have := skipWs_dumpVal j 0 []
    simpa using this
  rw [hsw]
  have hf : Json.pfuel j ≤ (dumpVal j 0).length + 1 :=
    le_trans (pfuel_le_dump j 0) (Nat.le_succ _)
  have hrt := parseVal_dump j ((dumpVal j 0).length + 1) 0 [] hf rfl
  rw [List.append_nil] at hrt
  rw [hrt]
  rfl

/-- C8 fails as stated: for the truthy success body
`badCrawlBody` (`data.text` is the number `0`) the driver crashes at
the preview expression, before `json.dump` is reached, so there is no
subsequent file write at all. -/
theorem C8_counterexample :
    badCrawlBody.truthy = true ∧
    (client_main 0 (.success regSuccessBody) (.success badCrawlBody)
      .transportError).ending = .crashed ∧
    (client_main 0 (.success regSuccessBody) (.success badCrawlBody)
      .transportError).saved = none := by
  decide

/-- C8 (amended): `crawl_url` hands back every success body
structurally unchanged; the driver saves a document only when the
result is truthy and the summary printing did not crash, and then it
saves exactly the returned body (third conjunct: on a well-shaped body
the write does happen); parsing the written bytes — `dumpJson` of the
result — returns the same document. -/
theorem C8_crawl_roundtrip (c : CrawlioClient) (url : String) (options : Option Json)
    (j : Json) (h : optTruthy c.api_key = true) :
    (crawl_url c url options (.success j)).result = some j ∧
    ((client_main 0 (.success regSuccessBody) (.success j) .transportError).saved = none ∨
      (client_main 0 (.success regSuccessBody) (.success j) .transportError).saved
        = some j) ∧
    ((client_main 0 (.success regSuccessBody) (.success sampleCrawlBody)
      .transportError).saved = some sampleCrawlBody) ∧
    loads (dumpJson j) = some j := by
  refine ⟨?_, ?_, by decide, loads_dumpJson j⟩
  · unfold crawl_url
    rw [if_pos h]
  · have hget : (JsonObj.cons "api_key"
          (Json.str "0IsGoeQuG0jpWgG5ehwPkRMDWgmfyzjv") JsonObj.nil).pyGet "api_key"
        = some (Json.str "0IsGoeQuG0jpWgG5ehwPkRMDWgmfyzjv") := by decide
    have hkey2 : optTruthy (some (Json.str "0IsGoeQuG0jpWgG5ehwPkRMDWgmfyzjv"))
        = true := by decide
    by_cases hb : j.truthy = true
    · cases hcs : clientSummary j with
      | none =>
          left
          simp [client_main, register_user, crawl_url, get_crawl_history,
            regSuccessBody, hget, hkey2, hb, hcs]
      | some evs =>
          right
          simp [client_main, register_user, crawl_url, get_crawl_history,
            regSuccessBody, hget, hkey2, hb, hcs]
    · left
      simp only [Bool.not_eq_true] at hb
      simp [client_main, register_user, crawl_url, get_crawl_history,
        regSuccessBody, hget, hkey2, hb]

/-- C8 witness: the amended statement at a keyed client and the
well-shaped sample body. -/
theorem C8_witness :
    (crawl_url keyedClient "https://www.wikipedia.org/" none
      (.success sampleCrawlBody)).result = some sampleCrawlBody ∧
    ((client_main 0 (.success regSuccessBody) (.success sampleCrawlBody)
        .transportError).saved = none ∨
      (client_main 0 (.success regSuccessBody) (.success sampleCrawlBody)
        .transportError).saved = some sampleCrawlBody) ∧
    ((client_main 0 (.success regSuccessBody) (.success sampleCrawlBody)
      .transportError).saved = some sampleCrawlBody) ∧
    loads (dumpJson sampleCrawlBody) = some sampleCrawlBody :=
  C8_crawl_roundtrip keyedClient "https://www.wikipedia.org/" none
    sampleCrawlBody (by decide)

end Crawlio
